import Mathlib

/-!
Verification of the anidb-rs client library against its specification.

The development shallowly embeds the Rust sources:
  - src/md4.rs       (MD4 compression function; buffering and padding helpers
                      live in cutil.rs which is absent, so padding is modelled
                      from the RFC 1320 description in the spec)
  - src/ed2k.rs      (two-level ED2K hash)
  - src/lib.rs       (reply parsing, AUTH validation, session machine,
                      cached calls, logout)
  - src/cache.rs     (sqlite-backed reply cache; the sqlite INSERT/SELECT
                      semantics of a single PRIMARY KEY table are modelled
                      as an association list)
  - src/bin/anisort.rs (target path construction)

Rust strings are represented as lists of their UTF-8 bytes (List Nat),
machine integers as Nat or Int with explicit reductions mod 2^32 where
the Rust code wraps. Fallible Rust functions return Except, and Rust
panics are modelled by a dedicated error constructor.
-/

/-- Bytes of an ASCII string literal. Every string literal appearing in the
Rust sources is ASCII, so the character codes coincide with the UTF-8 bytes. -/
def ascii (s : String) : List Nat := s.data.map Char.toNat

/-- Reduction modulo 2^32, the wrap-around of Rust u32 arithmetic. -/
def w32 (n : Nat) : Nat := n % 4294967296

/-- Left rotation of a 32-bit word, as u32.rotate_left in md4.rs. -/
def rotl (s n : Nat) : Nat :=
  w32 ((n % 4294967296) * 2 ^ s + (n % 4294967296) / 2 ^ (32 - s))

/-- Round function F of md4.rs: (x AND y) OR (NOT x AND z). -/
def md4F (x y z : Nat) : Nat := (x &&& y) ||| ((x ^^^ 4294967295) &&& z)

/-- Round function G of md4.rs: (x AND y) OR (x AND z) OR (y AND z). -/
def md4G (x y z : Nat) : Nat := (x &&& y) ||| (x &&& z) ||| (y &&& z)

/-- Round function H of md4.rs: x XOR y XOR z. -/
def md4H (x y z : Nat) : Nat := x ^^^ y ^^^ z

/-- Round-1 elementary operation op1 of md4.rs. -/
def op1 (a b c d k s : Nat) : Nat := rotl s (w32 (a + md4F b c d + k))

/-- Round-2 elementary operation op2 of md4.rs, with constant 0x5a827999. -/
def op2 (a b c d k s : Nat) : Nat := rotl s (w32 (a + md4G b c d + k + 0x5a827999))

/-- Round-3 elementary operation op3 of md4.rs, with constant 0x6ED9EBA1. -/
def op3 (a b c d k s : Nat) : Nat := rotl s (w32 (a + md4H b c d + k + 0x6ED9EBA1))

/-- The four 32-bit state words of md4.rs. -/
structure Md4State where
  s0 : Nat
  s1 : Nat
  s2 : Nat
  s3 : Nat
deriving DecidableEq

/-- Initial MD4 state (I0..I3 in md4.rs). -/
def md4Init : Md4State := ⟨0x67452301, 0xefcdab89, 0x98badcfe, 0x10325476⟩

/-- Little-endian packing of bytes into 32-bit words (read_u32v_le).
Modelled from the spec: the helper lives in cutil.rs, absent from src;
the spec fixes MD4 to the little-endian RFC 1320 definition. -/
def bytesToWordsLE : List Nat → List Nat
  | b0 :: b1 :: b2 :: b3 :: rest =>
      w32 (b0 % 256 + 256 * (b1 % 256) + 65536 * (b2 % 256) + 16777216 * (b3 % 256))
        :: bytesToWordsLE rest
  | _ => []

/-- Body of one round-1 loop iteration of md4.rs (indices i, i+1, i+2, i+3). -/
def round1Step (x : Nat → Nat) (p : Nat × Nat × Nat × Nat) (i : Nat) :
    Nat × Nat × Nat × Nat :=
  let a := op1 p.1 p.2.1 p.2.2.1 p.2.2.2 (x i) 3
  let d := op1 p.2.2.2 a p.2.1 p.2.2.1 (x (i + 1)) 7
  let c := op1 p.2.2.1 d a p.2.1 (x (i + 2)) 11
  let b := op1 p.2.1 c d a (x (i + 3)) 19
  (a, b, c, d)

/-- Body of one round-2 loop iteration of md4.rs (indices i, i+4, i+8, i+12). -/
def round2Step (x : Nat → Nat) (p : Nat × Nat × Nat × Nat) (i : Nat) :
    Nat × Nat × Nat × Nat :=
  let a := op2 p.1 p.2.1 p.2.2.1 p.2.2.2 (x i) 3
  let d := op2 p.2.2.2 a p.2.1 p.2.2.1 (x (i + 4)) 5
  let c := op2 p.2.2.1 d a p.2.1 (x (i + 8)) 9
  let b := op2 p.2.1 c d a (x (i + 12)) 13
  (a, b, c, d)

/-- Body of one round-3 loop iteration of md4.rs (indices i, i+8, i+4, i+12). -/
def round3Step (x : Nat → Nat) (p : Nat × Nat × Nat × Nat) (i : Nat) :
    Nat × Nat × Nat × Nat :=
  let a := op3 p.1 p.2.1 p.2.2.1 p.2.2.2 (x i) 3
  let d := op3 p.2.2.2 a p.2.1 p.2.2.1 (x (i + 8)) 9
  let c := op3 p.2.2.1 d a p.2.1 (x (i + 4)) 11
  let b := op3 p.2.1 c d a (x (i + 12)) 15
  (a, b, c, d)

/-- Md4State.process_block of md4.rs: three rounds over a 64-byte block,
then the feed-forward addition of the incoming state. The round-1 loop of
the source steps i over 0, 4, 8, 12; round 2 over 0, 1, 2, 3; round 3 over
0, 2, 1, 3. -/
def md4ProcessBlock (st : Md4State) (input : List Nat) : Md4State :=
  let data := bytesToWordsLE input
  let x := fun i => data.getD i 0
  let p := [0, 4, 8, 12].foldl (round1Step x) (st.s0, st.s1, st.s2, st.s3)
  let p := [0, 1, 2, 3].foldl (round2Step x) p
  let p := [0, 2, 1, 3].foldl (round3Step x) p
  ⟨w32 (st.s0 + p.1), w32 (st.s1 + p.2.1), w32 (st.s2 + p.2.2.1), w32 (st.s3 + p.2.2.2)⟩

/-- Little-endian bytes of a 32-bit word (write_u32_le). -/
def le32 (n : Nat) : List Nat :=
  [n % 256, n / 256 % 256, n / 65536 % 256, n / 16777216 % 256]

/-- Little-endian bytes of a 64-bit quantity. -/
def le64 (n : Nat) : List Nat := le32 (n % 4294967296) ++ le32 (n / 4294967296)

/-- MD4 padding. Modelled from the spec: the buffering helpers
(FixedBuffer64, StandardPadding) live in cutil.rs which is absent from src;
the spec states the standard rule, append 0x80, zero-pad to 56 mod 64, then
the 64-bit little-endian length in bits. -/
def md4Pad (msg : List Nat) : List Nat :=
  msg ++ [0x80] ++ List.replicate ((119 - msg.length % 64) % 64) 0
      ++ le64 (msg.length * 8 % 18446744073709551616)

/-- Process every complete 64-byte block of a (padded) message in order. -/
def md4Blocks (st : Md4State) (l : List Nat) : Md4State :=
  (List.range (l.length / 64)).foldl
    (fun s i => md4ProcessBlock s ((l.drop (64 * i)).take 64)) st

/-- The 16 output bytes of a final MD4 state. -/
def md4Output (st : Md4State) : List Nat :=
  le32 st.s0 ++ le32 st.s1 ++ le32 st.s2 ++ le32 st.s3

/-- MD4 of a byte string: the net effect of feeding the bytes to the md4.rs
streaming hasher and reading the result. -/
def md4 (msg : List Nat) : List Nat := md4Output (md4Blocks md4Init (md4Pad msg))

/-- ED2K block size, as in ed2k.rs: 9500 KiB. -/
def BLOCKSIZE : Nat := 9500 * 1024

/-- Number of blocks computed by Ed2kHash::from_file:
size / BLOCKSIZE, plus one when the remainder is positive. -/
def ed2kBlockCount (data : List Nat) : Nat :=
  data.length / BLOCKSIZE + (if data.length % BLOCKSIZE > 0 then 1 else 0)

/-- The bytes read for block i: the file is read sequentially, up to
BLOCKSIZE bytes at a time. -/
def ed2kBlock (data : List Nat) (i : Nat) : List Nat :=
  (data.drop (i * BLOCKSIZE)).take BLOCKSIZE

/-- Ed2kHash::from_file of ed2k.rs, as a function of the file contents.
The loop keeps the inner digest of the current block in md4_digest and
feeds each inner digest to the outer hasher ctx_f; after the loop the
outer hash is finalized only when more than one block was produced,
otherwise md4_digest still holds the digest of the single block, or the
initial zero buffer when the file was empty. -/
def ed2k (data : List Nat) : List Nat :=
  let blocks := ed2kBlockCount data
  let final := (List.range blocks).foldl
    (fun acc i => (md4 (ed2kBlock data i), acc.2 ++ md4 (ed2kBlock data i)))
    (List.replicate 16 0, [])
  if blocks > 1 then md4 final.2 else final.1

example : ascii "ab" = [97, 98] := by decide

example : md4 (ascii "") =
    [0x31, 0xd6, 0xcf, 0xe0, 0xd1, 0x6a, 0xe9, 0x31,
     0xb7, 0x3c, 0x59, 0xd7, 0xe0, 0xc0, 0x89, 0xc0] := by decide

example : md4 (ascii "abc") =
    [0xa4, 0x48, 0x01, 0x7a, 0xaf, 0x21, 0xd8, 0x52,
     0x5f, 0xc1, 0x0a, 0xe8, 0x7a, 0xa6, 0x72, 0x9d] := by decide

/-- Variants of rusqlite::Error reachable through cache.rs: the row lookup
of Cache::get can report QueryReturnedNoRows, and the plain INSERT of
Cache::put can violate the PRIMARY KEY constraint. -/
inductive SqliteErr where
  | queryReturnedNoRows
  | constraintViolation
deriving DecidableEq

/-- AnidbError of errors.rs. The Io and Utf8Error payloads carry opaque OS
or library data in Rust and are modelled as bare constructors; Error holds
its formatted message bytes. The extra panicUnreachable constructor models
a Rust panic (the unreachable! in assert_session), which is not an
AnidbError variant but an abort of the program. -/
inductive AnidbErr where
  | ioError
  | utf8Error
  | parseIntError
  | staticError (msg : String)
  | errorCode (code : Int) (data : List Nat)
  | errorMsg (msg : List Nat)
  | sqliteError (e : SqliteErr)
  | noSuchFile
  | panicUnreachable
deriving DecidableEq

/-- ServerReply of lib.rs: a parsed status code and the payload text. -/
structure ServerReply where
  code : Int
  data : List Nat
deriving DecidableEq

/-- Decidable equality for Except results, needed to evaluate concrete
runs of the fallible embedded functions. -/
instance {ε α : Type} [DecidableEq ε] [DecidableEq α] : DecidableEq (Except ε α) :=
  fun x y =>
    match x, y with
    | .ok a, .ok b =>
        if h : a = b then .isTrue (by rw [h])
        else .isFalse (fun hh => h (Except.ok.inj hh))
    | .error a, .error b =>
        if h : a = b then .isTrue (by rw [h])
        else .isFalse (fun hh => h (Except.error.inj hh))
    | .ok _, .error _ => .isFalse (fun hh => Except.noConfusion hh)
    | .error _, .ok _ => .isFalse (fun hh => Except.noConfusion hh)

/-- True when the byte is a UTF-8 continuation byte (0x80..0xBF). -/
def isCont (b : Nat) : Bool := decide (128 ≤ b ∧ b ≤ 191)

/-- One step of the standard UTF-8 acceptor automaton. State 0 expects a
sequence start; states 1 and 2 expect one or two generic continuation
bytes; states 3 to 7 encode the restricted second-byte ranges after E0,
ED, F0, F4 and F1..F3 that exclude overlong forms, surrogates and values
above U+10FFFF. -/
def utf8NextState (st b : Nat) : Option Nat :=
  if st = 0 then
    if b < 128 then some 0
    else if 194 ≤ b ∧ b ≤ 223 then some 1
    else if b = 224 then some 3
    else if b = 237 then some 4
    else if 224 ≤ b ∧ b ≤ 239 then some 2
    else if b = 240 then some 5
    else if b = 244 then some 6
    else if 240 ≤ b ∧ b ≤ 244 then some 7
    else none
  else if st = 1 then if isCont b then some 0 else none
  else if st = 2 then if isCont b then some 1 else none
  else if st = 3 then if 160 ≤ b ∧ b ≤ 191 then some 1 else none
  else if st = 4 then if 128 ≤ b ∧ b ≤ 159 then some 1 else none
  else if st = 5 then if 144 ≤ b ∧ b ≤ 191 then some 2 else none
  else if st = 6 then if 128 ≤ b ∧ b ≤ 143 then some 2 else none
  else if st = 7 then if isCont b then some 2 else none
  else none

/-- Run of the UTF-8 acceptor: accept when the input ends in the start
state. -/
def utf8Run : Nat → List Nat → Bool
  | st, [] => decide (st = 0)
  | st, b :: rest =>
    match utf8NextState st b with
    | some st2 => utf8Run st2 rest
    | none => false

/-- Validity of a byte string as UTF-8, the check done by str::from_utf8
in parse_reply. -/
def utf8Valid (l : List Nat) : Bool := utf8Run 0 l

/-- The UTF-8 encoding of U+FFFD, the replacement character. -/
def rep : List Nat := [239, 191, 189]

/-- String::from_utf8_lossy on a byte string, staying in byte form: valid
sequences are copied, each maximal invalid subpart is replaced by U+FFFD
and decoding resumes at the first byte that broke the sequence. -/
def utf8Lossy : List Nat → List Nat
  | [] => []
  | b :: rest =>
    if b < 128 then b :: utf8Lossy rest
    else if 194 ≤ b ∧ b ≤ 223 then
      match rest with
      | c1 :: r =>
          if isCont c1 then b :: c1 :: utf8Lossy r
          else rep ++ utf8Lossy (c1 :: r)
      | [] => rep
    else if 224 ≤ b ∧ b ≤ 239 then
      match rest with
      | [] => rep
      | c1 :: r1 =>
        if (if b = 224 then decide (160 ≤ c1 ∧ c1 ≤ 191)
            else if b = 237 then decide (128 ≤ c1 ∧ c1 ≤ 159)
            else isCont c1) then
          match r1 with
          | [] => rep
          | c2 :: r2 =>
              if isCont c2 then b :: c1 :: c2 :: utf8Lossy r2
              else rep ++ utf8Lossy (c2 :: r2)
        else rep ++ utf8Lossy (c1 :: r1)
    else if 240 ≤ b ∧ b ≤ 244 then
      match rest with
      | [] => rep
      | c1 :: r1 =>
        if (if b = 240 then decide (144 ≤ c1 ∧ c1 ≤ 191)
            else if b = 244 then decide (128 ≤ c1 ∧ c1 ≤ 143)
            else isCont c1) then
          match r1 with
          | [] => rep
          | c2 :: r2 =>
            if isCont c2 then
              match r2 with
              | [] => rep
              | c3 :: r3 =>
                  if isCont c3 then b :: c1 :: c2 :: c3 :: utf8Lossy r3
                  else rep ++ utf8Lossy (c3 :: r3)
            else rep ++ utf8Lossy (c2 :: r2)
        else rep ++ utf8Lossy (c1 :: r1)
    else rep ++ utf8Lossy rest

/-- Rust str::parse::<i32> on the bytes of a string: an optional single
leading sign, then one or more ASCII decimal digits, no other characters,
and the value must fit in a signed 32-bit integer. -/
def parseI32 (s : List Nat) : Option Int :=
  let signed : Bool × List Nat :=
    match s with
    | [] => (false, [])
    | c :: rest =>
        if c = 43 then (false, rest)
        else if c = 45 then (true, rest)
        else (false, c :: rest)
  let digits := signed.2
  if digits = [] then none
  else if digits.all (fun d => decide (48 ≤ d ∧ d ≤ 57)) then
    let v : Nat := digits.foldl (fun acc d => acc * 10 + (d - 48)) 0
    if signed.1 then
      if v ≤ 2147483648 then some (-(v : Int)) else none
    else
      if v ≤ 2147483647 then some (v : Int) else none
  else none

/-- Rust str::parse::<u32> on the bytes of a string: an optional single
leading plus sign, then one or more ASCII decimal digits, no other
characters, value at most u32::MAX. -/
def parseU32 (s : List Nat) : Option Nat :=
  let digits := match s with
    | [] => []
    | c :: rest => if c = 43 then rest else c :: rest
  if digits = [] then none
  else if digits.all (fun d => decide (48 ≤ d ∧ d ≤ 57)) then
    let v := digits.foldl (fun acc d => acc * 10 + (d - 48)) 0
    if v ≤ 4294967295 then some v else none
  else none

/-- Rust str::split on a one-byte separator: the pieces between separator
occurrences, keeping empty pieces, with the empty string splitting to one
empty piece. -/
def splitByte (sep : Nat) : List Nat → List (List Nat)
  | [] => [[]]
  | b :: rest =>
    match splitByte sep rest with
    | [] => []
    | h :: t => if b = sep then [] :: h :: t else (b :: h) :: t

/-- Anidb::format_login_string of lib.rs. -/
def format_login_string (username password : List Nat) : List Nat :=
  ascii "AUTH user=" ++ username ++ ascii "&pass=" ++ password
    ++ ascii "&protover=3&client=anidbrs&clientver=1"

/-- Anidb::format_logout_string of lib.rs. -/
def format_logout_string (session_id : List Nat) : List Nat :=
  ascii "LOGOUT s=" ++ session_id

/-- Anidb::validate_auth_command of lib.rs: code must be exactly 200,
the payload split on one space must have exactly three parts, the second
LOGIN and the third ACCEPTED with a trailing newline; the first part is
the session token. The two format! messages are reproduced verbatim,
including the expceted typo of the source. -/
def validate_auth_command (reply : ServerReply) : Except AnidbErr (List Nat) :=
  if reply.code ≠ 200 then .error (.errorCode reply.code reply.data)
  else
    let v := splitByte 32 reply.data
    if v.length ≠ 3 then
      .error (.errorMsg (ascii "Invalid AUTH reply: " ++ reply.data
        ++ ascii " expceted 3 args"))
    else if v.getD 1 [] ≠ ascii "LOGIN" ∨ v.getD 2 [] ≠ ascii "ACCEPTED\n" then
      .error (.errorMsg (ascii "Invalid AUTH reply: " ++ reply.data
        ++ ascii " LOGIN ACCEPTED\\n expected"))
    else .ok (v.getD 0 [])

/-- Anidb::parse_reply of lib.rs: a reply shorter than 5 bytes is a static
error; the first three bytes must be UTF-8 text parsing as an i32 code;
byte 4 (the separator) is not examined; bytes 5 up to len, decoded as
lossy UTF-8, form the data payload. -/
def parse_reply (reply : List Nat) (len : Nat) : Except AnidbErr ServerReply :=
  if len < 5 then .error (.staticError "Reply less than 5 chars")
  else
    if utf8Valid (reply.take 3) then
      match parseI32 (reply.take 3) with
      | some code => .ok ⟨code, utf8Lossy ((reply.drop 4).take (len - 4))⟩
      | none => .error .parseIntError
    else .error .utf8Error

example : splitByte 32 (ascii "tok LOGIN ACCEPTED\n") =
    [ascii "tok", ascii "LOGIN", ascii "ACCEPTED\n"] := by decide

example : parse_reply (ascii "500 LOGIN FAILED") 16 =
    .ok ⟨500, ascii "LOGIN FAILED"⟩ := by decide

example : parse_reply (ascii "a3i5LOGIN FAILED") 16 = .error .parseIntError := by decide

example : parse_reply (ascii "3D") 2 =
    .error (.staticError "Reply less than 5 chars") := by decide

/-- One row of the apicall table of cache.rs: query is the PRIMARY KEY,
the other columns hold the reply code, the reply text, and the insertion
timestamp. -/
structure CacheEntry where
  query : List Nat
  code : Int
  answer : List Nat
  time_created : Int
deriving DecidableEq

/-- Cache::get of cache.rs. Models the sqlite query_row SELECT on the
PRIMARY KEY: the first (hence only) row with a matching query is returned,
and an empty result is the rusqlite QueryReturnedNoRows error. -/
def cache_get (c : List CacheEntry) (query : List Nat) : Except AnidbErr ServerReply :=
  match c.find? (fun e => decide (e.query = query)) with
  | some e => .ok ⟨e.code, e.answer⟩
  | none => .error (.sqliteError .queryReturnedNoRows)

/-- Cache::put of cache.rs. Models the plain sqlite INSERT into a table
whose query column is the PRIMARY KEY: when a row with the key already
exists the INSERT fails with a constraint violation and the table is left
unchanged; otherwise the new row is added. Returns the resulting table
together with the Result of the call. -/
def cache_put (c : List CacheEntry) (query : List Nat) (reply : ServerReply)
    (now : Int) : List CacheEntry × Except AnidbErr Unit :=
  if c.any (fun e => decide (e.query = query)) then
    (c, .error (.sqliteError .constraintViolation))
  else
    (c ++ [⟨query, reply.code, reply.data, now⟩], .ok ())

/-- Session of lib.rs: the three-state session variant. -/
inductive Session where
  | disconnected
  | pending (user pwd : List Nat)
  | connected (token : List Nat)
deriving DecidableEq

/-- The client state touched by the embedded operations of lib.rs: the
session, the cache table, the log of datagrams transmitted so far in
order, and the wall clock used for cache timestamps. The socket, remote
address and rate-limit clock carry no information the claims mention and
are not modelled. -/
structure ClientState where
  session : Session
  cache : List CacheEntry
  sent : List (List Nat)
  now : Int
deriving DecidableEq

/-- A network oracle: for each datagram sent, the buffer filled by recv
and the received length. Io failures of send and recv are outside the
model, which corresponds to runs where the socket calls succeed. -/
def Network : Type := List Nat → List Nat × Nat

/-- Anidb::send_wait_reply of lib.rs, minus the rate-limit sleep (pure
timing) and the socket Io: the message is transmitted, one datagram is
received, and the reply is parsed. The transmitted datagram is appended
to the send log even when parsing fails, as in the source where the send
happens before the reply is examined. -/
def send_wait_reply (st : ClientState) (net : Network) (message : List Nat) :
    ClientState × Except AnidbErr ServerReply :=
  let st2 := { st with sent := st.sent ++ [message] }
  ( st2, parse_reply (net message).1 (net message).2 )

/-- Anidb::assert_session of lib.rs: Pending formats and sends an AUTH
command, validates the reply and stores the token; Disconnected and
Connected send nothing. The final match of the source returns the token
when the session is Connected and hits unreachable! otherwise, which is
modelled by the panicUnreachable error. -/
def assert_session (st : ClientState) (net : Network) :
    ClientState × Except AnidbErr (List Nat) :=
  let login_cmd := match st.session with
    | .disconnected => []
    | .connected _ => []
    | .pending user pwd => format_login_string user pwd
  let step : ClientState × Except AnidbErr Unit :=
    if login_cmd ≠ [] then
      match send_wait_reply st net login_cmd with
      | (st2, .error e) => (st2, .error e)
      | (st2, .ok reply) =>
        match validate_auth_command reply with
        | .error e => (st2, .error e)
        | .ok session => ({ st2 with session := .connected session }, .ok ())
    else (st, .ok ())
  match step with
  | (st3, .error e) => (st3, .error e)
  | (st3, .ok ()) =>
    match st3.session with
    | .connected s => (st3, .ok s)
    | _ => (st3, .error .panicUnreachable)

/-- Anidb::call of lib.rs: obtain the session token, append the &s= token
suffix to the formatted command, send it, then store the reply in the
cache under the original command text. -/
def call (st : ClientState) (net : Network) (message : List Nat) :
    ClientState × Except AnidbErr ServerReply :=
  match assert_session st net with
  | (st2, .error e) => (st2, .error e)
  | (st2, .ok s) =>
    match send_wait_reply st2 net (message ++ ascii "&s=" ++ s) with
    | (st3, .error e) => (st3, .error e)
    | (st3, .ok reply) =>
      match cache_put st3.cache message reply st3.now with
      | (c, .error e) => ({ st3 with cache := c }, .error e)
      | (c, .ok ()) => ({ st3 with cache := c }, .ok reply)

/-- Anidb::call_cached of lib.rs: a cache hit returns immediately; the
QueryReturnedNoRows miss falls through to call; any other cache error
propagates. -/
def call_cached (st : ClientState) (net : Network) (message : List Nat) :
    ClientState × Except AnidbErr ServerReply :=
  match cache_get st.cache message with
  | .error (.sqliteError .queryReturnedNoRows) => call st net message
  | .error e => (st, .error e)
  | .ok result => (st, .ok result)

/-- Anidb::logout of lib.rs: a Connected session formats and sends the
LOGOUT command and the reply is parsed by send_wait_reply; an error there
propagates before the session assignment, leaving the session as it was.
Otherwise the session becomes Disconnected. -/
def logout (st : ClientState) (net : Network) : ClientState × Except AnidbErr Unit :=
  let logout_cmd := match st.session with
    | .connected session => format_logout_string session
    | _ => []
  if logout_cmd ≠ [] then
    match send_wait_reply st net logout_cmd with
    | (st2, .error e) => (st2, .error e)
    | (st2, .ok _reply) => ({ st2 with session := .disconnected }, .ok ())
  else ({ st with session := .disconnected }, .ok ())

/-- Anidb::login of lib.rs: store the credentials without contacting the
server. -/
def login (st : ClientState) (username password : List Nat) :
    ClientState × Except AnidbErr Unit :=
  ({ st with session := .pending username password }, .ok ())

/-- Ed2kHash of ed2k.rs: digest bytes, file size, lowercase hex form. -/
structure Ed2kHash where
  bin : List Nat
  size : Nat
  hex : List Nat
deriving DecidableEq

/-- File of lib.rs: the decoded FILE reply, fields in server order. -/
structure AniFile where
  fid : Nat
  aid : Nat
  eid : Nat
  gid : Nat
  filename : List Nat
  total_eps : Nat
  highest_ep : Nat
  year : List Nat
  typ : List Nat
  series_romaji : List Nat
  series_english : List Nat
  series_other : List Nat
  series_short : List Nat
  ep_number : List Nat
  ep_name : List Nat
  ep_romaji : List Nat
  group_name : List Nat
  group_short : List Nat
deriving DecidableEq

/-- HashData of anisort.rs: the hashed path and the hashing outcome. -/
structure HashData where
  filename : List Nat
  hash : Except AnidbErr Ed2kHash

/-- clean of anisort.rs: replace every ASCII space with an underscore,
then every forward slash with a pipe, as the two chained replace calls. -/
def clean (raw : List Nat) : List Nat :=
  (raw.map (fun b => if b = 32 then 95 else b)).map
    (fun b => if b = 47 then 124 else b)

/-- ASCII decimal rendering of a number, as the format! of a u32. -/
def natToDec (n : Nat) : List Nat := ascii (toString n)

/-- Rust Path::extension on a path given as bytes: take the final
component (after the last slash); the extension is the part after the
last dot, unless there is no dot or the only dot starts the component. -/
def rust_extension (p : List Nat) : Option (List Nat) :=
  let name := (splitByte 47 p).getLastD []
  if 46 ∈ name then
    let afterDot := name.reverse.takeWhile (fun b => decide (b ≠ 46))
    if afterDot.length + 1 = name.length then none
    else some afterDot.reverse
  else none

/-- PathBuf::join for a relative component, as used by build_path. -/
def path_join (base comp : List Nat) : List Nat := base ++ ascii "/" ++ comp

/-- build_path of anisort.rs. The two assert! calls and the two expect
calls of the source are panics, modelled as none. The episode number is
preceded by one zero for each position its textual length falls short of
the textual length of total_eps, but only when it parses as a u32. -/
def build_path (file : AniFile) (hashdata : HashData) (target_dir : List Nat) :
    Option (List Nat) :=
  let series := file.series_romaji
  if series = [] then none
  else
    let new_name := series ++ ascii " - "
    let new_name := new_name ++
      (if (parseU32 file.ep_number).isSome then
        List.replicate ((natToDec file.total_eps).length - file.ep_number.length) 48
      else [])
    let new_name := new_name ++ file.ep_number
    if file.ep_name = [] then none
    else
      let new_name := new_name ++ ascii " " ++ file.ep_name
      match rust_extension hashdata.filename with
      | none => none
      | some ext =>
        let new_name := new_name ++ ascii "." ++ ext
        some (path_join (path_join target_dir (clean file.series_romaji))
          (clean new_name))

example : rust_extension (ascii "/tmp/a.b/video.v1.mkv") = some (ascii "mkv") := by decide

example : rust_extension (ascii "/tmp/.hidden") = none := by decide

example : rust_extension (ascii "/tmp/noext") = none := by decide

example : clean (ascii "a b/c") = ascii "a_b|c" := by decide

section Theorems

/-- Helper: a predicate failing on all of l1 makes find? skip it. -/
theorem find?_append_right {α : Type} {p : α → Bool} {l1 l2 : List α}
    (h : l1.any p = false) : (l1 ++ l2).find? p = l2.find? p := by
  rw [List.find?_append]
  rw [List.find?_eq_none.mpr (List.any_eq_false.mp h)]
  rfl

/-- Helper: a found entry witnesses that any is true. -/
theorem any_true_of_find?_some {α : Type} {p : α → Bool} {l : List α} {a : α}
    (h : l.find? p = some a) : l.any p = true :=
  List.any_eq_true.mpr ⟨a, List.mem_of_find?_eq_some h, List.find?_some h⟩

/-- C2 amended: for an empty file the block loop of Ed2kHash::from_file
runs zero times, so the returned digest is the untouched zero-initialized
buffer, not the MD4 of the empty byte string. -/
theorem ed2k_empty_is_zero_buffer : ed2k [] = List.replicate 16 0 := by decide

/-- C2 counterexample: the digest returned for an empty file is the
all-zero buffer, which differs from the MD4 of the empty byte string, so
the claimed single-zero-length-block treatment does not hold. -/
theorem ed2k_empty_not_md4_empty :
    ed2k [] = List.replicate 16 0 ∧ ed2k [] ≠ md4 [] := by decide

/-- C6: the cache is write-through; when put succeeds, an immediate get
of the same key returns the reply just stored. -/
theorem cache_write_through (c : List CacheEntry) (k : List Nat)
    (v : ServerReply) (now : Int) (h : (cache_put c k v now).2 = .ok ()) :
    cache_get (cache_put c k v now).1 k = .ok v := by
  unfold cache_put at h ⊢
  cases ha : c.any (fun e => decide (e.query = k)) with
  | true => rw [if_pos ha] at h; exact absurd h (by simp)
  | false =>
    rw [if_neg (by simp [ha])]
    unfold cache_get
    rw [find?_append_right ha]
    simp [List.find?]

/-- C6 witness: storing a reply in the empty cache and reading it back. -/
theorem cache_write_through_witness :
    cache_get (cache_put [] (ascii "k") ⟨200, ascii "d"⟩ 0).1 (ascii "k") =
      .ok ⟨200, ascii "d"⟩ :=
  cache_write_through [] (ascii "k") ⟨200, ascii "d"⟩ 0 (by decide)

/-- C10: putting a second value under an existing key fails with the
sqlite constraint violation of the plain INSERT, and the stored entry is
unchanged: get still returns the original reply. -/
theorem cache_put_duplicate_fails (c : List CacheEntry) (k : List Nat)
    (v1 v2 : ServerReply) (now : Int)
    (hget : cache_get c k = .ok v1) (_hne : v2 ≠ v1) :
    cache_put c k v2 now = (c, .error (.sqliteError .constraintViolation)) ∧
    cache_get (cache_put c k v2 now).1 k = .ok v1 := by
  have ha : c.any (fun e => decide (e.query = k)) = true := by
    unfold cache_get at hget
    cases hf : c.find? (fun e => decide (e.query = k)) with
    | none => rw [hf] at hget; exact absurd hget (by simp)
    | some e => exact any_true_of_find?_some hf
  unfold cache_put
  rw [if_pos ha]
  exact ⟨rfl, hget⟩

/-- C10 witness: a concrete one-entry cache rejects a second insert under
the same key and still answers with the original entry. -/
theorem cache_put_duplicate_fails_witness :
    cache_put [⟨ascii "k", 200, ascii "d", 5⟩] (ascii "k") ⟨404, ascii "e"⟩ 9 =
      ([⟨ascii "k", 200, ascii "d", 5⟩], .error (.sqliteError .constraintViolation)) ∧
    cache_get (cache_put [⟨ascii "k", 200, ascii "d", 5⟩] (ascii "k") ⟨404, ascii "e"⟩ 9).1
      (ascii "k") = .ok ⟨200, ascii "d"⟩ :=
  cache_put_duplicate_fails [⟨ascii "k", 200, ascii "d", 5⟩] (ascii "k")
    ⟨200, ascii "d"⟩ ⟨404, ascii "e"⟩ 9 (by decide) (by decide)

/-- C8 amended: when assert_session runs with a Disconnected session, no
command is formatted, and the final match of the source falls through to
unreachable!, a panic; the call does not return an empty token. -/
theorem assert_session_disconnected_panics (st : ClientState) (net : Network)
    (h : st.session = .disconnected) :
    assert_session st net = (st, .error .panicUnreachable) := by
  unfold assert_session
  rw [h]
  simp [h]

/-- C8 witness: the panic outcome at a concrete disconnected state. -/
theorem assert_session_disconnected_panics_witness :
    assert_session ⟨Session.disconnected, [], [], 0⟩ (fun _ => ([], 0)) =
      (⟨Session.disconnected, [], [], 0⟩, .error .panicUnreachable) :=
  assert_session_disconnected_panics ⟨Session.disconnected, [], [], 0⟩
    (fun _ => ([], 0)) rfl

/-- C8 counterexample: at a concrete disconnected state the source does
not silently succeed with an empty session token; it aborts. -/
theorem assert_session_disconnected_no_empty_token :
    (assert_session ⟨Session.disconnected, [], [], 0⟩ (fun _ => ([], 0))).2 ≠
      .ok [] := by decide

end Theorems

/-- Helper: the formatted LOGOUT command is never the empty string. -/
theorem format_logout_string_ne_nil (tok : List Nat) :
    format_logout_string tok ≠ [] := by
  unfold format_logout_string
  rw [show ascii "LOGOUT s=" = [76, 79, 71, 79, 85, 84, 32, 115, 61] from by decide]
  simp

/-- C7 amended: logout moves Pending and Disconnected sessions to
Disconnected with no datagram sent; a Connected session sends the LOGOUT
command and becomes Disconnected when the reply parses, but a reply that
parse_reply rejects propagates the error and leaves the session
Connected. -/
theorem logout_behavior :
    (∀ (st : ClientState) (net : Network), st.session = .disconnected →
        logout st net = ({ st with session := .disconnected }, .ok ())) ∧
    (∀ (st : ClientState) (net : Network) (u p : List Nat), st.session = .pending u p →
        logout st net = ({ st with session := .disconnected }, .ok ())) ∧
    (∀ (st : ClientState) (net : Network) (tok : List Nat) (reply : ServerReply),
        st.session = .connected tok →
        parse_reply (net (format_logout_string tok)).1
            (net (format_logout_string tok)).2 = .ok reply →
        logout st net =
          ({ st with sent := st.sent ++ [format_logout_string tok],
                     session := .disconnected }, .ok ())) ∧
    (∀ (st : ClientState) (net : Network) (tok : List Nat) (e : AnidbErr),
        st.session = .connected tok →
        parse_reply (net (format_logout_string tok)).1
            (net (format_logout_string tok)).2 = .error e →
        logout st net =
          ({ st with sent := st.sent ++ [format_logout_string tok] }, .error e)) := by
  refine ⟨?_, ?_, ?_, ?_⟩
  · intro st net h
    unfold logout
    rw [h]
    simp
  · intro st net u p h
    unfold logout
    rw [h]
    simp
  · intro st net tok reply h hp
    unfold logout send_wait_reply
    rw [h]
    simp only [ne_eq, format_logout_string_ne_nil tok, not_false_eq_true, if_true,
      if_pos]
    rw [hp]
  · intro st net tok e h hp
    unfold logout send_wait_reply
    rw [h]
    simp only [ne_eq, format_logout_string_ne_nil tok, not_false_eq_true, if_true,
      if_pos]
    rw [hp]

/-- C7 witness: a Connected session whose LOGOUT reply parses becomes
Disconnected, with exactly the LOGOUT datagram sent. -/
theorem logout_behavior_witness :
    logout ⟨Session.connected (ascii "tok"), [], [], 0⟩
        (fun _ => (ascii "200 bye", 7)) =
      (⟨Session.disconnected, [], [format_logout_string (ascii "tok")], 0⟩, .ok ()) :=
  logout_behavior.2.2.1 ⟨Session.connected (ascii "tok"), [], [], 0⟩
    (fun _ => (ascii "200 bye", 7)) (ascii "tok") ⟨200, ascii "bye"⟩ rfl (by decide)

/-- C7 counterexample: with a Connected session and a malformed (empty)
reply to LOGOUT, logout returns the parse error and the session is still
Connected, so logout does not always transition to Disconnected. -/
theorem logout_stuck_connected_on_bad_reply :
    (logout ⟨Session.connected (ascii "tok"), [], [], 0⟩ (fun _ => ([], 0))).2 =
        .error (.staticError "Reply less than 5 chars") ∧
    (logout ⟨Session.connected (ascii "tok"), [], [], 0⟩ (fun _ => ([], 0))).1.session =
        Session.connected (ascii "tok") := by decide

/-- Helper: a pure ASCII byte string is valid UTF-8. -/
theorem utf8Valid_ascii : ∀ l : List Nat, (∀ b ∈ l, b < 128) → utf8Valid l = true := by
  intro l
  induction l with
  | nil => intro _; rfl
  | cons b rest ih =>
    intro h
    have hb : b < 128 := h b (by simp)
    have hs : utf8NextState 0 b = some 0 := by
      unfold utf8NextState
      rw [if_pos rfl, if_pos hb]
    unfold utf8Valid utf8Run
    rw [hs]
    exact ih fun x hx => h x (by simp [hx])

/-- Helper: three ASCII decimal digits form valid UTF-8. -/
theorem utf8Valid_three_digits {d1 d2 d3 : Nat}
    (h1 : 48 ≤ d1 ∧ d1 ≤ 57) (h2 : 48 ≤ d2 ∧ d2 ≤ 57) (h3 : 48 ≤ d3 ∧ d3 ≤ 57) :
    utf8Valid [d1, d2, d3] = true := by
  apply utf8Valid_ascii
  intro b hb
  simp only [List.mem_cons, List.not_mem_nil, or_false] at hb
  rcases hb with rfl | rfl | rfl <;> omega

/-- Helper: parseI32 on three ASCII decimal digits yields their value. -/
theorem parseI32_three_digits {d1 d2 d3 : Nat}
    (h1 : 48 ≤ d1 ∧ d1 ≤ 57) (h2 : 48 ≤ d2 ∧ d2 ≤ 57) (h3 : 48 ≤ d3 ∧ d3 ≤ 57) :
    parseI32 [d1, d2, d3] =
      some ((100 * (d1 - 48) + 10 * (d2 - 48) + (d3 - 48) : Nat) : Int) := by
  unfold parseI32
  simp [show ¬ d1 = 43 by omega, show ¬ d1 = 45 by omega, decide_eq_true h1,
    decide_eq_true h2, decide_eq_true h3]
  exact ⟨⟨h1, h2, h3⟩, by omega, by ring⟩

/-- C5: a well-formed reply datagram of three ASCII decimal digits, one
arbitrary separator byte and a nonempty payload parses to the decimal
code and the lossy-UTF-8 payload; the separator byte is never examined;
in particular the exactly-five-byte reply 777 O parses to (777, O). -/
theorem parse_reply_well_formed :
    (∀ (d1 d2 d3 sep : Nat) (payload : List Nat),
        48 ≤ d1 ∧ d1 ≤ 57 → 48 ≤ d2 ∧ d2 ≤ 57 → 48 ≤ d3 ∧ d3 ≤ 57 →
        payload ≠ [] →
        parse_reply (d1 :: d2 :: d3 :: sep :: payload) (4 + payload.length) =
          .ok ⟨((100 * (d1 - 48) + 10 * (d2 - 48) + (d3 - 48) : Nat) : Int),
               utf8Lossy payload⟩) ∧
    parse_reply (ascii "777 O") 5 = .ok ⟨777, ascii "O"⟩ := by
  constructor
  · intro d1 d2 d3 sep payload h1 h2 h3 hp
    have hlen : 0 < payload.length := List.length_pos.mpr hp
    unfold parse_reply
    rw [if_neg (by omega)]
    rw [show (d1 :: d2 :: d3 :: sep :: payload).take 3 = [d1, d2, d3] from rfl]
    rw [utf8Valid_three_digits h1 h2 h3, if_pos rfl]
    rw [parseI32_three_digits h1 h2 h3]
    rw [show (d1 :: d2 :: d3 :: sep :: payload).drop 4 = payload from rfl]
    rw [show 4 + payload.length - 4 = payload.length by omega, List.take_length]
  · decide

/-- C5 witness: the five-byte reply 777 O at its exact length. -/
theorem parse_reply_well_formed_witness :
    parse_reply [55, 55, 55, 32, 79] (4 + [79].length) =
      .ok ⟨((100 * (55 - 48) + 10 * (55 - 48) + (55 - 48) : Nat) : Int),
           utf8Lossy [79]⟩ :=
  parse_reply_well_formed.1 55 55 55 32 [79] (by decide) (by decide) (by decide)
    (by decide)


/-- C3: validate_auth_command returns the first space-separated part of
the payload as the session token exactly when the code is 200 and the
payload splits on ASCII space into three parts whose second is LOGIN and
whose third is ACCEPTED with a trailing newline; a code other than 200
yields the ErrorCode error, and any other deviation yields a protocol
Error with a formatted message. -/
theorem validate_auth_command_spec :
    (∀ (reply : ServerReply) (tok : List Nat),
        validate_auth_command reply = .ok tok ↔
          reply.code = 200 ∧
          splitByte 32 reply.data = [tok, ascii "LOGIN", ascii "ACCEPTED\n"]) ∧
    (∀ reply : ServerReply, reply.code ≠ 200 →
        validate_auth_command reply = .error (.errorCode reply.code reply.data)) ∧
    (∀ reply : ServerReply, reply.code = 200 →
        (∀ tok : List Nat,
          splitByte 32 reply.data ≠ [tok, ascii "LOGIN", ascii "ACCEPTED\n"]) →
        ∃ msg, validate_auth_command reply = .error (.errorMsg msg)) := by
  refine ⟨?_, ?_, ?_⟩
  · intro reply tok
    unfold validate_auth_command
    by_cases hc : reply.code = 200
    · rw [if_neg (fun hne => hne hc)]
      rcases hv : splitByte 32 reply.data with - | ⟨a, - | ⟨b, - | ⟨c, - | ⟨d, t⟩⟩⟩⟩
      · simp [hc]
      · simp [hc]
      · simp [hc]
      · simp only [List.length_cons, List.length_nil]
        rw [if_neg (by omega)]
        by_cases hbc : b = ascii "LOGIN" ∧ c = ascii "ACCEPTED\n"
        · rw [if_neg (by simp [hbc.1, hbc.2])]
          simp [hc, hbc.1, hbc.2]
        · rw [if_pos (by by_contra hn; push_neg at hn; exact hbc ⟨hn.1, hn.2⟩)]
          simp [hc]
          rintro - hb hcc
          exact hbc ⟨hb, hcc⟩
      · simp only [List.length_cons]
        rw [if_pos (by omega)]
        simp [hc]
    · rw [if_pos hc]
      simp [hc]
  · intro reply h
    unfold validate_auth_command
    rw [if_pos h]
  · intro reply hc hshape
    unfold validate_auth_command
    rw [if_neg (fun hne => hne hc)]
    rcases hv : splitByte 32 reply.data with - | ⟨a, - | ⟨b, - | ⟨c, - | ⟨d, t⟩⟩⟩⟩
    · exact ⟨_, rfl⟩
    · exact ⟨_, rfl⟩
    · exact ⟨_, rfl⟩
    · simp only [List.length_cons, List.length_nil]
      rw [if_neg (by omega)]
      rw [if_pos ?_]
      · exact ⟨_, rfl⟩
      · by_contra hn
        push_neg at hn
        simp only [List.getD_cons_succ, List.getD_cons_zero] at hn
        exact hshape a (by rw [hv, hn.1, hn.2])
    · simp only [List.length_cons]
      rw [if_pos (by omega)]
      exact ⟨_, rfl⟩

/-- C3 witness: the accepted reply yields the token, the rejected reply a
protocol error. -/
theorem validate_auth_command_spec_witness :
    validate_auth_command ⟨200, ascii "tok LOGIN ACCEPTED\n"⟩ = .ok (ascii "tok") ∧
    (∃ msg, validate_auth_command ⟨200, ascii "tok LOGIN REJECTED\n"⟩ =
      .error (.errorMsg msg)) :=
  ⟨(validate_auth_command_spec.1 ⟨200, ascii "tok LOGIN ACCEPTED\n"⟩
      (ascii "tok")).mpr ⟨rfl, by decide⟩,
   validate_auth_command_spec.2.2 ⟨200, ascii "tok LOGIN REJECTED\n"⟩ rfl
     (by intro tok h
         rw [show splitByte 32 (ascii "tok LOGIN REJECTED\n") =
           [ascii "tok", ascii "LOGIN", ascii "REJECTED\n"] from by decide] at h
         simp only [List.cons.injEq] at h
         exact absurd h.2.2.1 (by decide))⟩

/-- Helper: the formatted AUTH command is never the empty string. -/
theorem format_login_string_ne_nil (u p : List Nat) :
    format_login_string u p ≠ [] := by
  unfold format_login_string
  rw [show ascii "AUTH user=" = [65, 85, 84, 72, 32, 117, 115, 101, 114, 61] from by decide]
  simp

/-- Helper: a successful assert_session leaves the session Connected with
the returned token and does not touch the cache or the clock. -/
theorem assert_session_ok (st : ClientState) (net : Network) (sta : ClientState)
    (tok : List Nat) (h : assert_session st net = (sta, .ok tok)) :
    sta.session = .connected tok ∧ sta.cache = st.cache ∧ sta.now = st.now := by
  unfold assert_session send_wait_reply at h
  cases hss : st.session with
  | disconnected =>
    simp [hss] at h
  | connected s =>
    simp [hss] at h
    obtain ⟨rfl, rfl⟩ := h
    exact ⟨hss, rfl, rfl⟩
  | pending u p =>
    simp [hss, format_login_string_ne_nil u p] at h
    cases hpr : parse_reply (net (format_login_string u p)).1
        (net (format_login_string u p)).2 with
    | error e =>
      simp [hpr] at h
    | ok reply =>
      simp [hpr] at h
      cases hva : validate_auth_command reply with
      | error e =>
        simp [hva] at h
      | ok sess =>
        simp [hva] at h
        obtain ⟨rfl, rfl⟩ := h
        exact ⟨rfl, rfl, rfl⟩

/-- Helper: a successful call sends, as its last datagram, the command
with the session token appended as the &s= suffix, while the cache gains
exactly one entry keyed by the original command text. -/
theorem call_ok (st : ClientState) (net : Network) (msg : List Nat)
    (st2 : ClientState) (reply : ServerReply)
    (h : call st net msg = (st2, .ok reply)) :
    ∃ tok, st2.session = .connected tok ∧
      st2.sent.getLast? = some (msg ++ ascii "&s=" ++ tok) ∧
      st2.cache = st.cache ++ [⟨msg, reply.code, reply.data, st.now⟩] := by
  unfold call at h
  cases has : assert_session st net with
  | mk sta ra =>
    rw [has] at h
    cases ra with
    | error e => simp at h
    | ok tok =>
      obtain ⟨hsess, hcache, hnow⟩ := assert_session_ok st net sta tok has
      simp at h
      rw [show send_wait_reply sta net (msg ++ (ascii "&s=" ++ tok)) =
          ({ sta with sent := sta.sent ++ [msg ++ (ascii "&s=" ++ tok)] },
           parse_reply (net (msg ++ (ascii "&s=" ++ tok))).1
             (net (msg ++ (ascii "&s=" ++ tok))).2) from rfl] at h
      cases hpr : parse_reply (net (msg ++ (ascii "&s=" ++ tok))).1
          (net (msg ++ (ascii "&s=" ++ tok))).2 with
      | error e =>
        rw [hpr] at h
        simp at h
      | ok r =>
        rw [hpr] at h
        cases hcp : cache_put sta.cache msg r sta.now with
        | mk c pr =>
          simp at h
          rw [hcp] at h
          cases pr with
          | error e => simp at h
          | ok u =>
            simp at h
            obtain ⟨rfl, rfl⟩ := h
            refine ⟨tok, hsess, ?_, ?_⟩
            · simp [List.getLast?_concat]
            · have hc2 : c = sta.cache ++ [⟨msg, r.code, r.data, sta.now⟩] := by
                unfold cache_put at hcp
                cases hany : sta.cache.any (fun e => decide (e.query = msg)) with
                | true => rw [if_pos hany] at hcp; simp at hcp
                | false =>
                  rw [if_neg (by simp [hany])] at hcp
                  simp at hcp
                  exact hcp.symm
              simp [hc2, hcache, hnow]

/-- C4: on a cache miss, the transmitted datagram is the formatted
command with &s=<token> appended, while the reply is stored under the
original command text alone; since the key is exactly the pre-suffix
command, no session token appears in any cache key. -/
theorem call_cached_miss_key_is_message :
    ∀ (st : ClientState) (net : Network) (msg : List Nat) (st2 : ClientState)
      (reply : ServerReply),
    cache_get st.cache msg = .error (.sqliteError .queryReturnedNoRows) →
    call_cached st net msg = (st2, .ok reply) →
    ∃ tok, st2.session = .connected tok ∧
      st2.sent.getLast? = some (msg ++ ascii "&s=" ++ tok) ∧
      st2.cache = st.cache ++ [⟨msg, reply.code, reply.data, st.now⟩] := by
  intro st net msg st2 reply hmiss h
  unfold call_cached at h
  rw [hmiss] at h
  exact call_ok st net msg st2 reply h

/-- C4 witness: a concrete miss run; the datagram carries &s=T while the
cache key is the bare FILE command. -/
theorem call_cached_miss_key_is_message_witness :
    ∃ tok,
      (⟨Session.connected (ascii "T"),
        [⟨ascii "FILE size=1", 200, ascii "ok", 0⟩],
        [ascii "FILE size=1" ++ ascii "&s=" ++ ascii "T"], 0⟩ : ClientState).session =
          .connected tok ∧
      (⟨Session.connected (ascii "T"),
        [⟨ascii "FILE size=1", 200, ascii "ok", 0⟩],
        [ascii "FILE size=1" ++ ascii "&s=" ++ ascii "T"], 0⟩ : ClientState).sent.getLast? =
          some (ascii "FILE size=1" ++ ascii "&s=" ++ tok) ∧
      (⟨Session.connected (ascii "T"),
        [⟨ascii "FILE size=1", 200, ascii "ok", 0⟩],
        [ascii "FILE size=1" ++ ascii "&s=" ++ ascii "T"], 0⟩ : ClientState).cache =
          [] ++ [⟨ascii "FILE size=1", 200, ascii "ok", 0⟩] :=
  call_cached_miss_key_is_message
    ⟨Session.connected (ascii "T"), [], [], 0⟩
    (fun _ => (ascii "200 ok", 6))
    (ascii "FILE size=1")
    ⟨Session.connected (ascii "T"),
      [⟨ascii "FILE size=1", 200, ascii "ok", 0⟩],
      [ascii "FILE size=1" ++ ascii "&s=" ++ ascii "T"], 0⟩
    ⟨200, ascii "ok"⟩
    (by decide) (by decide)

/-- C9: clean replaces every ASCII space with an underscore and every
forward slash with a pipe, and build_path yields
target/<clean series>/<clean "<series> - <padded ep> <ep name>.<ext>">,
where the episode number is left-padded with zeros to the width of the
decimal rendering of total_eps exactly when it parses as an unsigned
decimal integer, and is used as-is otherwise. -/
theorem build_path_spec :
    (∀ raw : List Nat, clean raw =
        raw.map (fun b => if b = 32 then 95 else if b = 47 then 124 else b)) ∧
    (∀ (file : AniFile) (hashdata : HashData) (target_dir ext : List Nat),
        file.series_romaji ≠ [] → file.ep_name ≠ [] →
        rust_extension hashdata.filename = some ext →
        build_path file hashdata target_dir =
          some (target_dir ++ ascii "/" ++ clean file.series_romaji ++ ascii "/" ++
            clean (file.series_romaji ++ ascii " - " ++
              (if (parseU32 file.ep_number).isSome then
                List.replicate
                  ((natToDec file.total_eps).length - file.ep_number.length) 48
              else []) ++
              file.ep_number ++ ascii " " ++ file.ep_name ++ ascii "." ++ ext))) := by
  constructor
  · intro raw
    unfold clean
    rw [List.map_map]
    refine congrArg (fun fn => List.map fn raw) ?_
    funext b
    by_cases h32 : b = 32
    · simp [h32, Function.comp]
    · by_cases h47 : b = 47
      · simp [h47, h32, Function.comp]
      · simp [h32, h47, Function.comp]
  · intro file hashdata target_dir ext hs hn he
    unfold build_path path_join
    simp only [hs, hn, he, if_neg, ite_false, not_false_eq_true]

/-- C9 witness: a concrete build; series "A B", episode "2" of 12 with
title "N/x" and extension mkv pads to 02 and cleans the separators. -/
theorem build_path_spec_witness :
    build_path ⟨1, 2, 3, 4, ascii "f", 12, 12, ascii "2020", ascii "TV",
        ascii "A B", [], [], [], ascii "2", ascii "N/x", [], ascii "G", ascii "g"⟩
      ⟨ascii "/tmp/file.mkv", .error .ioError⟩ (ascii "/lib") =
      some (ascii "/lib" ++ ascii "/" ++ clean (ascii "A B") ++ ascii "/" ++
        clean (ascii "A B" ++ ascii " - " ++
          (if (parseU32 (ascii "2")).isSome then
            List.replicate ((natToDec 12).length - (ascii "2").length) 48
          else []) ++
          ascii "2" ++ ascii " " ++ ascii "N/x" ++ ascii "." ++ ascii "mkv")) :=
  build_path_spec.2
    ⟨1, 2, 3, 4, ascii "f", 12, 12, ascii "2020", ascii "TV", ascii "A B",
      [], [], [], ascii "2", ascii "N/x", [], ascii "G", ascii "g"⟩
    ⟨ascii "/tmp/file.mkv", .error .ioError⟩ (ascii "/lib") (ascii "mkv")
    (by decide) (by decide) (by decide)

/-- Helper: the block loop of from_file, folded over the block indices,
leaves the last inner digest in md4_digest and the concatenation of all
inner digests in the outer hasher input. -/
theorem ed2k_foldl (f : Nat → List Nat) (is : List Nat) :
    ∀ init acc : List Nat,
      is.foldl (fun p i => (f i, p.2 ++ f i)) (init, acc) =
        ((is.map f).getLastD init, acc ++ (is.map f).flatten) := by
  induction is with
  | nil => intro init acc; simp
  | cons i t ih =>
    intro init acc
    simp only [List.foldl_cons, List.map_cons, List.getLastD_cons,
      List.flatten_cons]
    rw [ih]
    simp [List.append_assoc]

/-- Helper: a nonempty file of at most BLOCKSIZE bytes yields one block. -/
theorem ed2kBlockCount_single {data : List Nat} (h0 : 0 < data.length)
    (hle : data.length ≤ BLOCKSIZE) : ed2kBlockCount data = 1 := by
  unfold ed2kBlockCount
  rcases eq_or_lt_of_le hle with heq | hlt
  · rw [heq, Nat.div_self (by decide : 0 < BLOCKSIZE), Nat.mod_self]
    simp
  · rw [Nat.div_eq_of_lt hlt, Nat.mod_eq_of_lt hlt]
    simp [h0]

/-- Helper: a file larger than BLOCKSIZE yields at least two blocks. -/
theorem ed2kBlockCount_multi {data : List Nat} (h : BLOCKSIZE < data.length) :
    1 < ed2kBlockCount data := by
  unfold ed2kBlockCount
  have hB : BLOCKSIZE = 9728000 := by decide
  rw [hB] at h ⊢
  have hdm := Nat.div_add_mod data.length 9728000
  have hml : data.length % 9728000 < 9728000 := Nat.mod_lt _ (by norm_num)
  by_cases hm : data.length % 9728000 > 0
  · rw [if_pos hm]
    omega
  · rw [if_neg hm]
    omega

/-- C1: for a file of one block (nonempty, at most BLOCKSIZE bytes) the
ED2K digest is the MD4 of the block contents themselves, not a rehash of
the inner digest; for a file larger than BLOCKSIZE the digest is the MD4
of the concatenated per-block MD4 digests, blocks in file order. -/
theorem ed2k_single_multi_block :
    (∀ data : List Nat, 0 < data.length → data.length ≤ BLOCKSIZE →
        ed2k data = md4 data) ∧
    (∀ data : List Nat, BLOCKSIZE < data.length →
        ed2k data = md4 (((List.range (ed2kBlockCount data)).map
          (fun i => md4 (ed2kBlock data i))).flatten)) := by
  constructor
  · intro data h0 hle
    simp only [ed2k]
    rw [ed2kBlockCount_single h0 hle]
    rw [ed2k_foldl (fun i => md4 (ed2kBlock data i)) (List.range 1)]
    rw [if_neg (by omega)]
    rw [show List.range 1 = [0] from by decide]
    have hblock : ed2kBlock data 0 = data := by
      unfold ed2kBlock
      rw [Nat.zero_mul, List.drop_zero, List.take_of_length_le hle]
    simp [hblock]
  · intro data hgt
    have hb := ed2kBlockCount_multi hgt
    simp only [ed2k]
    rw [ed2k_foldl (fun i => md4 (ed2kBlock data i))]
    rw [if_pos hb]
    simp

/-- C1 witness: a one-byte file falls under the single-block rule, and a
file of BLOCKSIZE + 1 zero bytes under the multi-block rule. -/
theorem ed2k_single_multi_block_witness :
    ed2k [0] = md4 [0] ∧
    ed2k (List.replicate (BLOCKSIZE + 1) 0) =
      md4 (((List.range (ed2kBlockCount (List.replicate (BLOCKSIZE + 1) 0))).map
        (fun i => md4 (ed2kBlock (List.replicate (BLOCKSIZE + 1) 0) i))).flatten) :=
  ⟨ed2k_single_multi_block.1 [0] (by decide) (by decide),
   ed2k_single_multi_block.2 (List.replicate (BLOCKSIZE + 1) 0)
     (by rw [List.length_replicate]; exact Nat.lt_succ_self _)⟩
